import Mathlib

/-!
Shallow embedding of the technical-indicator pipeline of the stock-analysis
dashboard (`pages/1_📈_Candlestick.py`: `load_candlestick_data`,
`calculate_metrics`; `pages/2_📊_OHLC_Analysis.py`: `parse_stock_data`),
together with theorems checking the specified properties of that pipeline.

Modelling conventions:
- A parsed float cell is a rational number; where the source's float
  arithmetic can produce NaN or an infinity (pandas/NumPy never raise on
  float division by zero), the embedding makes that outcome explicit,
  either as an `Option` (`none` = the cell holds NaN) or through the
  `FloatVal` type carrying signed infinities and NaN.
- A pandas column is a function from the row index to such a value;
  a DataFrame of candles is a `List Candle` in row order.
-/

namespace StockAnalyst

/-- One OHLCV bar of the historical-candle feed after type conversion:
`timestamp` is the parsed date-time (modelled as an integer instant, which
preserves the order comparisons the code performs on it), the remaining
fields are the parsed numeric columns. The field `open_` models the `open`
column (`open` is a reserved word). -/
structure Candle where
  timestamp : Int
  open_ : ℚ
  high : ℚ
  low : ℚ
  close : ℚ
  volume : ℚ
  oi : ℚ
deriving DecidableEq, Repr

/-- Boolean comparison used by the chronological sort. -/
def tsLE (a b : Candle) : Bool := decide (a.timestamp ≤ b.timestamp)

/-- Chronological ordering step of `load_candlestick_data`:
`df.sort_values('timestamp')` sorts the rows ascending by timestamp,
keeping every row. -/
def sortByTimestamp (raw : List Candle) : List Candle :=
  raw.mergeSort tsLE

theorem tsLE_trans : ∀ a b c : Candle, tsLE a b → tsLE b c → tsLE a c := by
  intro a b c hab hbc
  simp only [tsLE, decide_eq_true_eq] at *
  omega

theorem tsLE_total : ∀ a b : Candle, tsLE a b || tsLE b a := by
  intro a b
  simp only [tsLE, Bool.or_eq_true, decide_eq_true_eq]
  omega

/-- Close column of a frame, in row order. -/
def closes (df : List Candle) : List ℚ := df.map Candle.close

/-- C1: for every non-empty candle batch, the sorted output of the
normalizer is ascending by timestamp, is a permutation of the input (no
record dropped, none duplicated) and so has exactly the input's length,
whatever the delivery order of the input. -/
theorem normalizer_sorted_same_length (raw : List Candle) (hne : raw ≠ []) :
    List.Sorted (fun a b : Candle => a.timestamp ≤ b.timestamp) (sortByTimestamp raw) ∧
    (sortByTimestamp raw).Perm raw ∧
    (sortByTimestamp raw).length = raw.length := by
  refine ⟨?_, List.mergeSort_perm raw _, (List.mergeSort_perm raw _).length_eq⟩
  have h := List.sorted_mergeSort tsLE_trans tsLE_total raw
  exact h.imp (fun hab => by simpa [tsLE] using hab)

/-- Witness for C1 at a concrete two-element batch delivered newest-first. -/
theorem normalizer_sorted_same_length_witness :
    List.Sorted (fun a b : Candle => a.timestamp ≤ b.timestamp)
      (sortByTimestamp [⟨2, 1, 2, 1, 2, 5, 0⟩, ⟨1, 3, 4, 3, 4, 6, 0⟩]) ∧
    (sortByTimestamp [⟨2, 1, 2, 1, 2, 5, 0⟩, ⟨1, 3, 4, 3, 4, 6, 0⟩]).Perm
      [⟨2, 1, 2, 1, 2, 5, 0⟩, ⟨1, 3, 4, 3, 4, 6, 0⟩] ∧
    (sortByTimestamp [⟨2, 1, 2, 1, 2, 5, 0⟩, ⟨1, 3, 4, 3, 4, 6, 0⟩]).length = 2 :=
  normalizer_sorted_same_length [⟨2, 1, 2, 1, 2, 5, 0⟩, ⟨1, 3, 4, 3, 4, 6, 0⟩]
    (by decide)

/-! Indicator engine: the derived columns `load_candlestick_data` adds to
the sorted frame. Each column is modelled at one row index. -/

/-- Slice xs[i+1-N .. i] read by a rolling window of size N ending at i. -/
def windowSlice (xs : List ℚ) (N i : ℕ) : List ℚ := (xs.drop (i + 1 - N)).take N

/-- Cell i of `Series.rolling(window=N).mean()` over a NaN-free series:
NaN (`none`) until a full window of N values exists, i.e. defined exactly
when N - 1 ≤ i < length, as the mean of xs[i-N+1..i]. -/
def rollingMean (N : ℕ) (xs : List ℚ) (i : ℕ) : Option ℚ :=
  if N ≤ i + 1 ∧ i < xs.length then some ((windowSlice xs N i).sum / (N : ℚ)) else none

/-- Cell i of the `sma_N` column: `df['close'].rolling(window=N).mean()`. -/
def sma (N : ℕ) (df : List Candle) (i : ℕ) : Option ℚ := rollingMean N (closes df) i

/-- Cell j of `delta = df['close'].diff()`: NaN (`none`) on the first row. -/
def deltaAt (xs : List ℚ) (j : ℕ) : Option ℚ :=
  if 1 ≤ j ∧ j < xs.length then some (xs.getD j 0 - xs.getD (j - 1) 0) else none

/-- Cell j of the gain series `delta.where(delta > 0, 0)`. `Series.where`
keeps a value where the condition holds and writes 0 elsewhere; the IEEE
comparison `NaN > 0` is false, so the leading NaN of `diff` is replaced by
0 as well, leaving the gain series NaN-free. -/
def gainAt (xs : List ℚ) (j : ℕ) : ℚ :=
  match deltaAt xs j with
  | some d => if 0 < d then d else 0
  | none => 0

/-- Cell j of the loss series `-delta.where(delta < 0, 0)` (the same
NaN-to-0 clamping applies, and -0 = 0). -/
def lossAt (xs : List ℚ) (j : ℕ) : ℚ :=
  match deltaAt xs j with
  | some d => if d < 0 then -d else 0
  | none => 0

/-- Cell i of `gain = (delta.where(delta > 0, 0)).rolling(window=14).mean()`:
the clamped gain series has no NaN, so the mean is defined exactly when a
full 14-window exists, i.e. from row 13 on. -/
def avgGain (xs : List ℚ) (i : ℕ) : Option ℚ :=
  if 13 ≤ i ∧ i < xs.length then
    some (((List.range 14).map (fun k => gainAt xs (i - 13 + k))).sum / 14)
  else none

/-- Cell i of `loss = (-delta.where(delta < 0, 0)).rolling(window=14).mean()`. -/
def avgLoss (xs : List ℚ) (i : ℕ) : Option ℚ :=
  if 13 ≤ i ∧ i < xs.length then
    some (((List.range 14).map (fun k => lossAt xs (i - 13 + k))).sum / 14)
  else none

/-- Cell i of `df['rsi'] = 100 - (100 / (1 + gain / loss))`, with the
IEEE-754 outcomes of `gain / loss` made explicit: when the loss average is
0, the ratio is +inf for a positive gain average (the formula then yields
exactly 100) and NaN for a zero gain average (the cell holds NaN, `none`);
a NaN in either average propagates to NaN. -/
def rsiAt (xs : List ℚ) (i : ℕ) : Option ℚ :=
  match avgGain xs i, avgLoss xs i with
  | some g, some l =>
      if l = 0 then (if g = 0 then none else some 100)
      else some (100 - 100 / (1 + g / l))
  | _, _ => none

/-- Cell i of the `rsi` column of the enriched frame. -/
def rsi (df : List Candle) (i : ℕ) : Option ℚ := rsiAt (closes df) i

/-- Value held by one cell of a float column: a finite number, a signed
infinity, or NaN. Used where the source's float arithmetic can overflow a
plain rational model. -/
inductive FloatVal where
  | num : ℚ → FloatVal
  | inf : FloatVal
  | ninf : FloatVal
  | nan : FloatVal
deriving DecidableEq, Repr

/-- Division of two finite float cells with the IEEE-754 zero-divisor
cases: x/0 is +inf for x > 0, -inf for x < 0 and NaN for x = 0; NumPy
emits these silently (a warning at most), it never raises. -/
def fdiv (x y : ℚ) : FloatVal :=
  if y ≠ 0 then .num (x / y)
  else if 0 < x then .inf
  else if x < 0 then .ninf
  else .nan

/-- Per-bar `df['volatility'] = ((df['high'] - df['low']) / df['open']) * 100`
for one row; multiplying an infinity or NaN by 100 keeps it. -/
def barVolatility (c : Candle) : FloatVal :=
  match fdiv (c.high - c.low) c.open_ with
  | .num q => .num (q * 100)
  | v => v

/-- Per-bar `df['is_green'] = df['close'] > df['open']`. -/
def is_green (c : Candle) : Bool := decide (c.open_ < c.close)

/-! Metrics summarizer: `calculate_metrics`. -/

/-- Cell i of `df['daily_return'] = df['close'].pct_change() * 100`: NaN
(`none`) on the first row, otherwise the percent change over the previous
close. The rational model covers frames whose closes are nonzero (the
candle data model's positive prices); a zero previous close would make the
float division produce an infinity instead. -/
def dailyReturnAt (xs : List ℚ) (i : ℕ) : Option ℚ :=
  if 1 ≤ i ∧ i < xs.length then
    some ((xs.getD i 0 - xs.getD (i - 1) 0) / xs.getD (i - 1) 0 * 100)
  else none

/-- Defined daily returns in row order: `df['daily_return'].dropna()`. -/
def dailyReturns (xs : List ℚ) : List ℚ :=
  (List.range xs.length).filterMap (fun i => dailyReturnAt xs i)

/-- Square of `Series.std()` with the default ddof = 1, i.e. the sample
variance with denominator n - 1; meaningful only for n ≥ 2. -/
def sampleVar (rs : List ℚ) : ℚ :=
  (rs.map (fun r => (r - rs.sum / (rs.length : ℚ)) ^ 2)).sum / ((rs.length : ℚ) - 1)

/-- Summary-level `volatility = returns.std() if len(returns) > 0 else 0`,
carried as its square: 0 when no return is defined; `Series.std()` of a
single observation divides by ddof = n - 1 = 0 and yields NaN (`none`);
for n ≥ 2 the source's value is the square root of this cell. -/
def volatilityMetricSq (df : List Candle) : Option ℚ :=
  let rs := dailyReturns (closes df)
  if rs.length = 0 then some 0
  else if rs.length = 1 then none
  else some (sampleVar rs)

/-- Last close, `df['close'].iloc[-1]`, of a non-empty frame. -/
def lastClose (df : List Candle) : ℚ := (closes df).getD (df.length - 1) 0

/-- Last cell of the sma_5 column, `df['sma_5'].iloc[-1]`. -/
def lastSma5 (df : List Candle) : Option ℚ := sma 5 df (df.length - 1)

/-- Trend cell `recent_trend = "Bullish" if df['close'].iloc[-1] >
df['sma_5'].iloc[-1] else "Bearish"`: the IEEE comparison `close > NaN` is false, so a missing
sma_5 falls into the else branch and the function answers "Bearish". -/
def recent_trend (df : List Candle) : String :=
  if (match lastSma5 df with
      | some s => decide (s < lastClose df)
      | none => false) then "Bullish" else "Bearish"

/-- Count `green_days = df['is_green'].sum()` of true cells. -/
def green_days (df : List Candle) : ℕ := (df.filter is_green).length

/-- Count `red_days = len(df) - green_days`. -/
def red_days (df : List Candle) : ℕ := df.length - green_days df

/-- Ratio `win_rate = (green_days / len(df)) * 100 if len(df) > 0 else 0`. -/
def win_rate (df : List Candle) : ℚ :=
  if 0 < df.length then ((green_days df : ℚ) / (df.length : ℚ)) * 100 else 0

/-- Summary record built by `calculate_metrics` (the fields the claims
touch; `volatilitySq` carries the square of the reported volatility). -/
structure SummaryMetrics where
  current_price : ℚ
  price_change : ℚ
  price_change_pct : ℚ
  volatilitySq : Option ℚ
  green_days : ℕ
  red_days : ℕ
  win_rate : ℚ
  recent_trend : String
  total_days : ℕ
deriving Repr

/-- Summarizer `calculate_metrics(df)`: an empty frame returns the empty dict
(modelled `none`) without touching any column; otherwise the summary
record. The function never raises. -/
def calculate_metrics (df : List Candle) : Option SummaryMetrics :=
  if df.isEmpty then none
  else
    let current := lastClose df
    let previous := if 1 < df.length then (closes df).getD (df.length - 2) 0 else current
    some
      { current_price := current
        price_change := current - previous
        price_change_pct :=
          if previous ≠ 0 then (current - previous) / previous * 100 else 0
        volatilitySq := volatilityMetricSq df
        green_days := green_days df
        red_days := red_days df
        win_rate := win_rate df
        recent_trend := recent_trend df
        total_days := df.length }

/-- Loader `load_candlestick_data` on an already-typed candle batch: builds the
frame, sorts it and adds the derived columns. For a validly-typed batch no
step raises — in particular an empty candle list builds an empty frame and
every column operation accepts it — so the surrounding try/except never
returns None (`none`) here and the result is the sorted frame (the derived
columns are recomputed from it by the cell functions above). -/
def load_candlestick_data (raw : List Candle) : Option (List Candle) :=
  some (sortByTimestamp raw)

/-! Snapshot parser: `parse_stock_data` of the OHLC analysis page. -/

/-- Raw per-instrument quote object of a snapshot document; any field may
be absent, `.get(key, default)` supplies the default. -/
structure StockInfoIn where
  symbol : Option String := none
  last_price : Option ℚ := none
  ohlc_open : Option ℚ := none
  ohlc_high : Option ℚ := none
  ohlc_low : Option ℚ := none
  ohlc_close : Option ℚ := none
  volume : Option ℚ := none
  average_price : Option ℚ := none
  net_change : Option ℚ := none
  upper_circuit_limit : Option ℚ := none
  lower_circuit_limit : Option ℚ := none
  timestamp : Option String := none
  total_buy_quantity : Option ℚ := none
  total_sell_quantity : Option ℚ := none
deriving Repr

/-- One parsed snapshot row. -/
structure SnapshotRecord where
  instrument_key : String
  symbol : String
  last_price : ℚ
  open_ : ℚ
  high : ℚ
  low : ℚ
  close : ℚ
  volume : ℚ
  average_price : ℚ
  net_change : ℚ
  net_change_percent : ℚ
  upper_circuit : ℚ
  lower_circuit : ℚ
  timestamp : String
  total_buy_quantity : ℚ
  total_sell_quantity : ℚ
deriving DecidableEq, Repr

/-- Builds one parsed row of `parse_stock_data`: `.get(key, default)`
becomes `Option.getD`; the percent-change divisor uses default 1 inside
the branch guarded by `last_price != 0`, exactly as the source writes it. -/
def parseOne (instrument_key : String) (info : StockInfoIn) : SnapshotRecord :=
  { instrument_key := instrument_key
    symbol := info.symbol.getD "N/A"
    last_price := info.last_price.getD 0
    open_ := info.ohlc_open.getD 0
    high := info.ohlc_high.getD 0
    low := info.ohlc_low.getD 0
    close := info.ohlc_close.getD 0
    volume := info.volume.getD 0
    average_price := info.average_price.getD 0
    net_change := info.net_change.getD 0
    net_change_percent :=
      if info.last_price.getD 0 ≠ 0 then
        info.net_change.getD 0 / info.last_price.getD 1 * 100
      else 0
    upper_circuit := info.upper_circuit_limit.getD 0
    lower_circuit := info.lower_circuit_limit.getD 0
    timestamp := info.timestamp.getD ""
    total_buy_quantity := info.total_buy_quantity.getD 0
    total_sell_quantity := info.total_sell_quantity.getD 0 }

/-- Snapshot document: top-level `status` and the instrument map in
iteration order. -/
structure SnapshotDoc where
  status : String
  data : List (String × StockInfoIn)

/-- Parser `parse_stock_data`: rejects a non-success envelope (the source shows
an error message and returns None), otherwise parses every instrument
entry in map order. -/
def parse_stock_data (doc : SnapshotDoc) : Option (List SnapshotRecord) :=
  if doc.status = "success" then
    some (doc.data.map (fun p => parseOne p.1 p.2))
  else none

/-! Shared helper lemmas and concrete test data. -/

theorem closes_length (df : List Candle) : (closes df).length = df.length := by
  simp [closes]

theorem gainAt_nonneg (xs : List ℚ) (j : ℕ) : 0 ≤ gainAt xs j := by
  unfold gainAt
  rcases deltaAt xs j with _ | d
  · exact le_refl 0
  · dsimp only
    split
    · linarith
    · exact le_refl 0

theorem lossAt_nonneg (xs : List ℚ) (j : ℕ) : 0 ≤ lossAt xs j := by
  unfold lossAt
  rcases deltaAt xs j with _ | d
  · exact le_refl 0
  · dsimp only
    split
    · linarith
    · exact le_refl 0

theorem avgGain_nonneg (xs : List ℚ) (i : ℕ) (g : ℚ) (h : avgGain xs i = some g) :
    0 ≤ g := by
  unfold avgGain at h
  split at h
  · injection h with h
    subst h
    refine div_nonneg (List.sum_nonneg ?_) (by norm_num)
    intro x hx
    simp only [List.mem_map] at hx
    obtain ⟨k, _, rfl⟩ := hx
    exact gainAt_nonneg xs _
  · exact absurd h (by simp)

theorem avgLoss_nonneg (xs : List ℚ) (i : ℕ) (l : ℚ) (h : avgLoss xs i = some l) :
    0 ≤ l := by
  unfold avgLoss at h
  split at h
  · injection h with h
    subst h
    refine div_nonneg (List.sum_nonneg ?_) (by norm_num)
    intro x hx
    simp only [List.mem_map] at hx
    obtain ⟨k, _, rfl⟩ := hx
    exact lossAt_nonneg xs _
  · exact absurd h (by simp)

/-- Degenerate bar with all four prices equal to c, used as test data. -/
def mkCandle (t : Int) (c : ℚ) : Candle := ⟨t, c, c, c, c, 0, 0⟩

/-- Fourteen bars with strictly increasing closes 1..14. -/
def upDf : List Candle :=
  [mkCandle 0 1, mkCandle 1 2, mkCandle 2 3, mkCandle 3 4, mkCandle 4 5,
   mkCandle 5 6, mkCandle 6 7, mkCandle 7 8, mkCandle 8 9, mkCandle 9 10,
   mkCandle 10 11, mkCandle 11 12, mkCandle 12 13, mkCandle 13 14]

/-- C2: for each sma column (N = 5, 20, 50), the cell at row i of a frame
is missing for i < N - 1 and otherwise equals the arithmetic mean of the
trailing N closes; and the rolling mean with N = 3 over the closes
[10, 20, 30, 40, 50] gives the column
[missing, missing, 20, 30, 40]. -/
theorem sma_window_mean (df : List Candle) (N i : ℕ)
    (hN : N = 5 ∨ N = 20 ∨ N = 50) (hi : i < df.length) :
    (i < N - 1 → sma N df i = none) ∧
    (N - 1 ≤ i →
      (windowSlice (closes df) N i).length = N ∧
      sma N df i =
        some ((windowSlice (closes df) N i).sum /
          ((windowSlice (closes df) N i).length : ℚ))) ∧
    (List.range 5).map (rollingMean 3 [10, 20, 30, 40, 50]) =
      [none, none, some 20, some 30, some 40] := by
  have hlen : (closes df).length = df.length := closes_length df
  refine ⟨?_, ?_, ?_⟩
  · intro h
    unfold sma rollingMean
    rw [if_neg]
    rintro ⟨h1, _⟩
    rcases hN with rfl | rfl | rfl <;> omega
  · intro h
    have hw : (windowSlice (closes df) N i).length = N := by
      simp only [windowSlice, List.length_take, List.length_drop, hlen]
      rcases hN with rfl | rfl | rfl <;> omega
    refine ⟨hw, ?_⟩
    unfold sma rollingMean
    rw [if_pos ⟨by rcases hN with rfl | rfl | rfl <;> omega, by omega⟩, hw]
  · norm_num [rollingMean, windowSlice, List.range_succ]

/-- Witness for C2 on a five-bar frame at the first defined sma_5 cell. -/
theorem sma_window_mean_witness :
    (4 < 5 - 1 → sma 5 upDf 4 = none) ∧
    (5 - 1 ≤ 4 →
      (windowSlice (closes upDf) 5 4).length = 5 ∧
      sma 5 upDf 4 =
        some ((windowSlice (closes upDf) 5 4).sum /
          ((windowSlice (closes upDf) 5 4).length : ℚ))) ∧
    (List.range 5).map (rollingMean 3 [10, 20, 30, 40, 50]) =
      [none, none, some 20, some 30, some 40] :=
  sma_window_mean upDf 5 4 (Or.inl rfl) (by simp [upDf])

/-- C3: whenever an rsi cell is defined its value lies in [0, 100]; when
the trailing loss average is 0 and the gain average is positive the cell
is exactly 100; when both averages are 0 the cell is undefined. -/
theorem rsi_bounds_and_degenerate (df : List Candle) (i : ℕ) :
    (∀ r, rsi df i = some r → 0 ≤ r ∧ r ≤ 100) ∧
    (∀ g, avgLoss (closes df) i = some 0 → avgGain (closes df) i = some g →
      0 < g → rsi df i = some 100) ∧
    (avgLoss (closes df) i = some 0 → avgGain (closes df) i = some 0 →
      rsi df i = none) := by
  refine ⟨?_, ?_, ?_⟩
  · intro r hr
    unfold rsi rsiAt at hr
    rcases hg : avgGain (closes df) i with _ | g <;> rw [hg] at hr
    · exact absurd hr (by simp)
    rcases hl : avgLoss (closes df) i with _ | l <;> rw [hl] at hr
    · exact absurd hr (by simp)
    have hg0 : 0 ≤ g := avgGain_nonneg _ _ _ hg
    have hl0 : 0 ≤ l := avgLoss_nonneg _ _ _ hl
    dsimp only at hr
    by_cases h1 : l = 0
    · rw [if_pos h1] at hr
      by_cases h2 : g = 0
      · rw [if_pos h2] at hr
        exact absurd hr (by simp)
      · rw [if_neg h2] at hr
        injection hr with hr
        rw [← hr]
        norm_num
    · rw [if_neg h1] at hr
      injection hr with hr
      have hlpos : 0 < l := lt_of_le_of_ne hl0 (Ne.symm h1)
      have hq : 0 ≤ g / l := div_nonneg hg0 (le_of_lt hlpos)
      have hpos : (0 : ℚ) < 1 + g / l := by linarith
      have hle : 100 / (1 + g / l) ≤ 100 := by
        rw [div_le_iff₀ hpos]
        nlinarith
      have hgt : 0 < 100 / (1 + g / l) := by positivity
      rw [← hr]
      constructor <;> linarith
  · intro g hl hg hgpos
    unfold rsi rsiAt
    rw [hg, hl]
    simp [ne_of_gt hgpos]
  · intro hl hg
    unfold rsi rsiAt
    rw [hg, hl]
    simp

/-- Witness for C3 on fourteen rising closes: the loss average is 0 and
the gain average is 13/14 > 0, so the rsi cell is exactly 100 (and in
bounds). -/
theorem rsi_bounds_and_degenerate_witness :
    rsi upDf 13 = some 100 :=
  (rsi_bounds_and_degenerate upDf 13).2.1 (13 / 14)
    (by norm_num [avgLoss, lossAt, deltaAt, upDf, mkCandle, closes, List.range_succ])
    (by norm_num [avgGain, gainAt, deltaAt, upDf, mkCandle, closes, List.range_succ])
    (by norm_num)

/-- C4 counterexample: on fourteen strictly rising closes the rsi cell of
row 13 (the 14th bar, an index below 14) is already defined — it equals
100 — because `Series.where` replaces the leading NaN of `diff` by 0, so a
full gain/loss window exists one row earlier than the claim states. -/
theorem rsi_already_defined_at_row_13 : rsi upDf 13 = some 100 := by
  norm_num [rsi, rsiAt, avgGain, avgLoss, gainAt, lossAt, deltaAt, upDf, mkCandle,
    closes, List.range_succ]

/-- C4 amended: the rsi cell is undefined for every row i < 13; from
row 13 on (13 true return observations plus the clamped-to-0 leading NaN)
it is undefined exactly when both trailing averages are 0. -/
theorem rsi_threshold_13 (df : List Candle) (i : ℕ) (hi : i < df.length) :
    (i < 13 → rsi df i = none) ∧
    (13 ≤ i → (rsi df i = none ↔
      avgGain (closes df) i = some 0 ∧ avgLoss (closes df) i = some 0)) := by
  have hil : i < (closes df).length := by
    rw [closes_length]
    exact hi
  constructor
  · intro h
    have hgnone : avgGain (closes df) i = none := by
      unfold avgGain
      rw [if_neg]
      rintro ⟨h1, _⟩
      omega
    unfold rsi rsiAt
    rw [hgnone]
  · intro h13
    obtain ⟨g, hg⟩ : ∃ g, avgGain (closes df) i = some g := by
      unfold avgGain
      rw [if_pos ⟨h13, hil⟩]
      exact ⟨_, rfl⟩
    obtain ⟨l, hl⟩ : ∃ l, avgLoss (closes df) i = some l := by
      unfold avgLoss
      rw [if_pos ⟨h13, hil⟩]
      exact ⟨_, rfl⟩
    unfold rsi rsiAt
    rw [hg, hl]
    dsimp only
    constructor
    · intro h
      by_cases hL : l = 0
      · rw [if_pos hL] at h
        by_cases hG : g = 0
        · exact ⟨by rw [hG], by rw [hL]⟩
        · rw [if_neg hG] at h
          exact absurd h (by simp)
      · rw [if_neg hL] at h
        exact absurd h (by simp)
    · rintro ⟨hG, hL⟩
      injection hG with hG
      injection hL with hL
      rw [if_pos hL, if_pos hG]

/-- Witness for the amended C4 on a concrete frame: row 5 of the 14-bar
frame carries no rsi value. -/
theorem rsi_threshold_13_witness : rsi upDf 5 = none :=
  (rsi_threshold_13 upDf 5 (by simp [upDf])).1 (by norm_num)

theorem filterMapRangeIfLength (v : ℕ → ℚ) (n : ℕ) :
    ((List.range n).filterMap (fun i => if 1 ≤ i then some (v i) else none)).length
      = n - 1 := by
  induction n with
  | zero => simp
  | succ m ih =>
    rw [List.range_succ, List.filterMap_append, List.length_append, ih]
    rcases Nat.eq_zero_or_pos m with rfl | hm
    · simp
    · have h1 : 1 ≤ m := hm
      simp only [List.filterMap_cons, List.filterMap_nil, h1, if_true]
      simp only [List.length_cons, List.length_nil]
      omega

/-- Every row past the first carries a defined daily return, so the
dropna'd return list of a frame has one entry less than the frame. -/
theorem dailyReturns_length (xs : List ℚ) :
    (dailyReturns xs).length = xs.length - 1 := by
  unfold dailyReturns
  have hcongr : (List.range xs.length).filterMap (fun i => dailyReturnAt xs i)
      = (List.range xs.length).filterMap
        (fun i => if 1 ≤ i then
          some ((xs.getD i 0 - xs.getD (i - 1) 0) / xs.getD (i - 1) 0 * 100)
        else none) := by
    apply List.filterMap_congr
    intro i hi
    simp only [List.mem_range] at hi
    unfold dailyReturnAt
    by_cases h1 : 1 ≤ i
    · rw [if_pos ⟨h1, hi⟩, if_pos h1]
    · rw [if_neg (by tauto), if_neg h1]
  rw [hcongr, filterMapRangeIfLength]

/-- Three bars with closes 10, 20, 40, used as test data. -/
def threeBarDf : List Candle := [mkCandle 0 10, mkCandle 1 20, mkCandle 2 40]

/-- Two bars with closes 10, 20, used as test data. -/
def twoBarDf : List Candle := [mkCandle 0 10, mkCandle 1 20]

/-- C5 counterexample: a two-bar window has exactly one defined daily
return, and there the summary volatility is NaN (`Series.std()` of a
single observation with the default ddof = 1), not the 0 the claim
demands. -/
theorem volatility_single_return_nan :
    dailyReturns (closes twoBarDf) = [100] ∧ volatilityMetricSq twoBarDf = none := by
  constructor
  · norm_num [dailyReturns, dailyReturnAt, closes, twoBarDf, mkCandle, List.range_succ,
      List.filterMap_cons, List.filterMap_nil]
  · norm_num [volatilityMetricSq, dailyReturns, dailyReturnAt, closes, twoBarDf,
      mkCandle, List.range_succ, List.filterMap_cons, List.filterMap_nil]

/-- C5 amended: the return list of an n-bar window has n - 1 entries; the
summary volatility (carried as its square) is 0 when no return is defined
(n ≤ 1), NaN when exactly one is defined (n = 2), and the sample variance
of the defined returns when two or more are defined (n ≥ 3). -/
theorem volatility_summary_cases (df : List Candle)
    (hpos : ∀ c ∈ df, 0 < c.close) :
    (dailyReturns (closes df)).length = df.length - 1 ∧
    (df.length ≤ 1 → volatilityMetricSq df = some 0) ∧
    (df.length = 2 → volatilityMetricSq df = none) ∧
    (3 ≤ df.length →
      volatilityMetricSq df = some (sampleVar (dailyReturns (closes df)))) := by
  have hlen : (dailyReturns (closes df)).length = df.length - 1 := by
    rw [dailyReturns_length, closes_length]
  refine ⟨hlen, ?_, ?_, ?_⟩
  · intro h
    simp only [volatilityMetricSq]
    rw [if_pos (by omega)]
  · intro h
    simp only [volatilityMetricSq]
    rw [if_neg (by omega), if_pos (by omega)]
  · intro h
    simp only [volatilityMetricSq]
    rw [if_neg (by omega), if_neg (by omega)]

/-- Witness for the amended C5 on the three-bar frame with closes
10, 20, 40 (returns 100 and 100). -/
theorem volatility_summary_cases_witness :
    (dailyReturns (closes threeBarDf)).length = threeBarDf.length - 1 ∧
    (threeBarDf.length ≤ 1 → volatilityMetricSq threeBarDf = some 0) ∧
    (threeBarDf.length = 2 → volatilityMetricSq threeBarDf = none) ∧
    (3 ≤ threeBarDf.length →
      volatilityMetricSq threeBarDf = some (sampleVar (dailyReturns (closes threeBarDf)))) :=
  volatility_summary_cases threeBarDf
    (by
      intro c hc
      simp only [threeBarDf, mkCandle, List.mem_cons, List.not_mem_nil, or_false] at hc
      rcases hc with rfl | rfl | rfl <;> norm_num)

/-- One bar, used as test data. -/
def oneBarDf : List Candle := [mkCandle 0 10]

/-- Five bars with closes 1..5, used as test data. -/
def fiveBarDf : List Candle :=
  [mkCandle 0 1, mkCandle 1 2, mkCandle 2 3, mkCandle 3 4, mkCandle 4 5]

/-- C6 counterexample: on a one-bar frame the last sma_5 cell is missing,
yet the summarizer answers the directional state "Bearish" (the missing
value lands in the else branch of the NaN comparison), not an explicit
undefined or neutral trend state. -/
theorem trend_missing_sma5_bearish :
    lastSma5 oneBarDf = none ∧
    (calculate_metrics oneBarDf).map SummaryMetrics.recent_trend = some "Bearish" := by
  constructor
  · norm_num [lastSma5, sma, rollingMean, closes, oneBarDf, mkCandle]
  · norm_num [calculate_metrics, recent_trend, lastSma5, sma, rollingMean, closes,
      oneBarDf, mkCandle]

/-- C6 amended: the trend is "Bullish" exactly when the last sma_5 cell is
defined and strictly below the last close; whenever the cell is missing
the summarizer answers "Bearish" (no neutral state exists). -/
theorem trend_bullish_iff (df : List Candle) (hne : df ≠ []) :
    (recent_trend df = "Bullish" ↔
      ∃ s, lastSma5 df = some s ∧ s < lastClose df) ∧
    (lastSma5 df = none → recent_trend df = "Bearish") := by
  constructor
  · unfold recent_trend
    rcases h : lastSma5 df with _ | s
    · simp
    · by_cases hc : s < lastClose df
      · simp [hc]
      · simp [hc]
  · intro h
    unfold recent_trend
    simp [h]

/-- Witness for the amended C6: on five rising closes the last sma_5 is 3,
below the last close 5, and the trend comes out "Bullish". -/
theorem trend_bullish_iff_witness : recent_trend fiveBarDf = "Bullish" :=
  (trend_bullish_iff fiveBarDf (by simp [fiveBarDf])).1.mpr
    ⟨3,
      by norm_num [lastSma5, sma, rollingMean, windowSlice, closes, fiveBarDf, mkCandle],
      by norm_num [lastClose, closes, fiveBarDf, mkCandle]⟩

/-- C7 counterexample: a bar with open = 0 and high > low produces the
value +inf for the volatility cell (the float division is carried out and
overflows to infinity), not a missing value. -/
theorem bar_volatility_zero_open_inf :
    barVolatility ⟨0, 0, 2, 1, 1, 0, 0⟩ = FloatVal.inf := by
  norm_num [barVolatility, fdiv]

/-- C7 amended: the per-bar volatility cell equals
(high - low) / open × 100 whenever open ≠ 0; when open = 0 the float
division silently yields +inf (high > low), -inf (high < low) or NaN
(high = low) — a value, never a raised error, but not a missing cell. -/
theorem bar_volatility_cases (c : Candle) :
    (c.open_ ≠ 0 →
      barVolatility c = FloatVal.num ((c.high - c.low) / c.open_ * 100)) ∧
    (c.open_ = 0 →
      (c.low < c.high → barVolatility c = FloatVal.inf) ∧
      (c.high < c.low → barVolatility c = FloatVal.ninf) ∧
      (c.high = c.low → barVolatility c = FloatVal.nan)) := by
  constructor
  · intro h
    simp [barVolatility, fdiv, h]
  · intro h
    refine ⟨?_, ?_, ?_⟩
    · intro hlh
      have hpos : 0 < c.high - c.low := sub_pos.mpr hlh
      simp [barVolatility, fdiv, h, hpos]
    · intro hhl
      have hneg : c.high - c.low < 0 := sub_neg.mpr hhl
      simp [barVolatility, fdiv, h, hneg, not_lt_of_gt hneg]
    · intro heq
      simp [barVolatility, fdiv, h, heq]

/-- Witness for the amended C7 on a bar with open 4, high 6, low 2. -/
theorem bar_volatility_cases_witness :
    barVolatility ⟨0, 4, 6, 2, 5, 0, 0⟩ = FloatVal.num 100 := by
  have h := (bar_volatility_cases ⟨0, 4, 6, 2, 5, 0, 0⟩).1 (by norm_num)
  rw [h]
  norm_num

/-- C8 counterexample: on zero candle records the loader succeeds with an
empty frame (no EMPTY_INPUT failure exists anywhere in the pipeline) and
the summarizer returns the empty dict sentinel instead of failing. -/
theorem empty_input_no_failure :
    load_candlestick_data [] = some [] ∧ calculate_metrics [] = none := by
  constructor
  · simp [load_candlestick_data, sortByTimestamp]
  · simp [calculate_metrics]

/-- C8 amended: the loader never rejects a validly-typed batch — empty
included — and the summarizer answers the empty dict (`none`) exactly on
the empty frame, guarding the 0/0 win-rate case without any EMPTY_INPUT
error. -/
theorem empty_input_behavior (raw : List Candle) :
    (load_candlestick_data raw).isSome ∧
    (calculate_metrics raw = none ↔ raw = []) := by
  constructor
  · rfl
  · unfold calculate_metrics
    cases raw <;> simp

/-- C9: for every snapshot document whose status is "success", parsing
succeeds and each instrument's net_change_percent is
net_change / last_price × 100 when last_price ≠ 0, and 0 when last_price
is 0 or absent (the `.getD 0` view makes both the same case). -/
theorem snapshot_net_change_percent (doc : SnapshotDoc) (hs : doc.status = "success")
    (k : String) (info : StockInfoIn) (hmem : (k, info) ∈ doc.data) :
    ∃ recs, parse_stock_data doc = some recs ∧ parseOne k info ∈ recs ∧
      (info.last_price.getD 0 ≠ 0 →
        (parseOne k info).net_change_percent =
          info.net_change.getD 0 / info.last_price.getD 0 * 100) ∧
      (info.last_price.getD 0 = 0 →
        (parseOne k info).net_change_percent = 0) := by
  refine ⟨doc.data.map (fun p => parseOne p.1 p.2), ?_, ?_, ?_, ?_⟩
  · simp [parse_stock_data, hs]
  · exact List.mem_map_of_mem (fun p => parseOne p.1 p.2) hmem
  · intro h
    rcases hlp : info.last_price with _ | x
    · rw [hlp] at h
      simp at h
    · rw [hlp] at h
      simp only [Option.getD_some] at h
      simp [parseOne, hlp, h]
  · intro h
    simp [parseOne, h]

/-- Single instrument quote with last_price 0 and net_change 5. -/
def zeroPriceInfo : StockInfoIn := { last_price := some 0, net_change := some 5 }

/-- Witness for C9: a success document holding one instrument with
last_price = 0 and net_change = 5 parses with net_change_percent = 0. -/
theorem snapshot_net_change_percent_witness :
    ∃ recs, parse_stock_data ⟨"success", [("NSE_EQ|INE00", zeroPriceInfo)]⟩ = some recs ∧
      parseOne "NSE_EQ|INE00" zeroPriceInfo ∈ recs ∧
      (zeroPriceInfo.last_price.getD 0 ≠ 0 →
        (parseOne "NSE_EQ|INE00" zeroPriceInfo).net_change_percent =
          zeroPriceInfo.net_change.getD 0 / zeroPriceInfo.last_price.getD 0 * 100) ∧
      (zeroPriceInfo.last_price.getD 0 = 0 →
        (parseOne "NSE_EQ|INE00" zeroPriceInfo).net_change_percent = 0) :=
  snapshot_net_change_percent ⟨"success", [("NSE_EQ|INE00", zeroPriceInfo)]⟩ rfl
    "NSE_EQ|INE00" zeroPriceInfo (by simp)

/-- C10: a flat bar (close = open) is not green under the strict
comparison, so it is counted as a red day; green and red days always
partition the window, and the win rate is green_days / total × 100 with
flat bars on the losing side. -/
theorem flat_bar_counts_red (df : List Candle) (c : Candle) (hc : c ∈ df)
    (hflat : c.close = c.open_) :
    is_green c = false ∧
    green_days df + red_days df = df.length ∧
    win_rate df = ((green_days df : ℚ) / (df.length : ℚ)) * 100 := by
  refine ⟨?_, ?_, ?_⟩
  · simp [is_green, hflat]
  · have hle : green_days df ≤ df.length := List.length_filter_le _ _
    unfold red_days
    omega
  · have hpos : 0 < df.length := List.length_pos.mpr (List.ne_nil_of_mem hc)
    unfold win_rate
    rw [if_pos hpos]

/-- Witness for C10 on a one-bar frame whose bar is flat at price 10. -/
theorem flat_bar_counts_red_witness :
    is_green (mkCandle 0 10) = false ∧
    green_days oneBarDf + red_days oneBarDf = oneBarDf.length ∧
    win_rate oneBarDf = ((green_days oneBarDf : ℚ) / (oneBarDf.length : ℚ)) * 100 :=
  flat_bar_counts_red oneBarDf (mkCandle 0 10) (by simp [oneBarDf]) rfl

end StockAnalyst
